import Mathlib

/-!
Shallow embedding of `src/index.py`: an AWS Lambda handler that, for each
SQS record of the triggering event, unwraps an SNS envelope, extracts S3
object-created sub-events, downloads each object, transforms it with
`process_file_content`, uploads the result and publishes an SNS success
message; any exception is caught at the batch boundary, one error message
is published best-effort and the handler returns status 500.

Modelling choices (each noted again at its definition):
* Opaque JSON strings are represented by their parse outcome: an
  `SqsRecord` carries the composite result of `json.loads(record.body)`,
  the `Message` field access, the inner `json.loads` and the `Records`
  field access (all of which run before any sub-event of that record is
  processed), and per sub-event the result of the
  `s3.bucket.name` / `s3.object.key` field accesses.
* External collaborators (S3 `get_object`/`put_object`, SNS `publish`)
  are deterministic oracles returning `Except`; the interpreter records
  every attempted call in a trace.
* `datetime.now()` is an oracle `clock : Nat → DateTime` indexed by a
  call counter; the code calls it once inside `process_file_content`,
  once for the destination-key timestamp, once for the success
  `processed_at` field, and once in the error path.
* Python exceptions are `Except String`; the message plays the role of
  `str(e)`.
* `json.dumps` of a plain string is modelled by wrapping it in quotes
  (escaping elided: no string in scope contains a quote or backslash);
  `json.dumps` of the structured SNS message dict is modelled by passing
  the structured value itself.
* `str.upper` is modelled characterwise with `Char.toUpper` (exact on
  ASCII; Python additionally applies full Unicode case mappings).
-/

/-- One decimal digit as a character. -/
def digitChar (n : Nat) : Char := Char.ofNat (48 + n)

/-- Two-digit zero-padded decimal rendering, as produced by `%m`, `%d`,
`%H`, `%M`, `%S` for in-range values (`n < 100`). -/
def pad2 (n : Nat) : List Char := [digitChar (n / 10 % 10), digitChar (n % 10)]

/-- Four-digit zero-padded decimal rendering, as produced by `%Y` for
calendar years (`1 ≤ n ≤ 9999`). -/
def pad4 (n : Nat) : List Char :=
  [digitChar (n / 1000 % 10), digitChar (n / 100 % 10), digitChar (n / 10 % 10), digitChar (n % 10)]

/-- A wall-clock instant at second resolution, the granularity used by
`datetime.now().strftime("%Y%m%d_%H%M%S")` in the source. -/
structure DateTime where
  year : Nat
  month : Nat
  day : Nat
  hour : Nat
  minute : Nat
  second : Nat
deriving DecidableEq, Repr

/-- Model of `datetime.strftime("%Y%m%d_%H%M%S")` (src/index.py line 42). -/
def strftimeTimestamp (t : DateTime) : String :=
  String.mk (pad4 t.year ++ pad2 t.month ++ pad2 t.day ++ ['_']
    ++ pad2 t.hour ++ pad2 t.minute ++ pad2 t.second)

/-- Model of `datetime.isoformat()` at second resolution (microseconds elided; no
claim inspects the sub-second part). -/
def isoformat (t : DateTime) : String :=
  String.mk (pad4 t.year ++ ['-'] ++ pad2 t.month ++ ['-'] ++ pad2 t.day ++ ['T']
    ++ pad2 t.hour ++ [':'] ++ pad2 t.minute ++ [':'] ++ pad2 t.second)

/-- UTF-8 continuation byte: `0x80 ≤ b < 0xC0`. -/
def isContByte (b : Nat) : Prop := 0x80 ≤ b ∧ b < 0xC0

instance (b : Nat) : Decidable (isContByte b) := by unfold isContByte; infer_instance

/-- Lower bound of the second byte after lead byte `b` (strict UTF-8
forbids overlong encodings: `E0` needs `b2 ≥ A0`, `F0` needs `b2 ≥ 90`). -/
def utf8Lo2 (b : Nat) : Nat := if b = 0xE0 then 0xA0 else if b = 0xF0 then 0x90 else 0x80

/-- Exclusive upper bound of the second byte after lead byte `b` (strict
UTF-8 forbids surrogates: `ED` needs `b2 < A0`; and code points above
`U+10FFFF`: `F4` needs `b2 < 90`). -/
def utf8Hi2 (b : Nat) : Nat := if b = 0xED then 0xA0 else if b = 0xF4 then 0x90 else 0xC0

/-- Strict UTF-8 decoding of a byte list, as `bytes.decode("utf-8")`
(src/index.py line 110): rejects stray continuation bytes, overlong
forms, surrogates, truncated sequences and code points above `U+10FFFF`;
`none` plays the role of `UnicodeDecodeError`. -/
def utf8Decode : List Nat → Option (List Char)
  | [] => some []
  | b :: rest =>
    if b < 0x80 then
      (utf8Decode rest).map (fun cs => Char.ofNat b :: cs)
    else if b < 0xC2 then none
    else if b < 0xE0 then
      match rest with
      | b2 :: rest2 =>
        if isContByte b2 then
          (utf8Decode rest2).map (fun cs =>
            Char.ofNat ((b - 0xC0) * 0x40 + (b2 - 0x80)) :: cs)
        else none
      | [] => none
    else if b < 0xF0 then
      match rest with
      | b2 :: b3 :: rest3 =>
        if utf8Lo2 b ≤ b2 ∧ b2 < utf8Hi2 b ∧ isContByte b3 then
          (utf8Decode rest3).map (fun cs =>
            Char.ofNat ((b - 0xE0) * 0x1000 + (b2 - 0x80) * 0x40 + (b3 - 0x80)) :: cs)
        else none
      | _ => none
    else if b < 0xF5 then
      match rest with
      | b2 :: b3 :: b4 :: rest4 =>
        if utf8Lo2 b ≤ b2 ∧ b2 < utf8Hi2 b ∧ isContByte b3 ∧ isContByte b4 then
          (utf8Decode rest4).map (fun cs =>
            Char.ofNat ((b - 0xF0) * 0x40000 + (b2 - 0x80) * 0x1000
              + (b3 - 0x80) * 0x40 + (b4 - 0x80)) :: cs)
        else none
      | _ => none
    else none

/-- UTF-8 encoding of one scalar value, as used by `str.encode("utf-8")`. -/
def utf8EncodeChar (c : Char) : List Nat :=
  let n := c.toNat
  if n < 0x80 then [n]
  else if n < 0x800 then [0xC0 + n / 0x40, 0x80 + n % 0x40]
  else if n < 0x10000 then
    [0xE0 + n / 0x1000, 0x80 + n / 0x40 % 0x40, 0x80 + n % 0x40]
  else
    [0xF0 + n / 0x40000, 0x80 + n / 0x1000 % 0x40, 0x80 + n / 0x40 % 0x40, 0x80 + n % 0x40]

/-- Model of `str.encode("utf-8")` (src/index.py lines 125 and 139). -/
def utf8Encode (cs : List Char) : List Nat := (cs.map utf8EncodeChar).flatten

/-- Characterwise model of `str.upper()` (src/index.py line 120). -/
def upperFold (cs : List Char) : List Char := cs.map Char.toUpper

/-- The text-branch report of `process_file_content`
(src/index.py lines 112-123), as a character list; the stored artifact is
its UTF-8 encoding. -/
def textReportChars (filename : String) (t : DateTime) (size : Nat)
    (textContent : List Char) : List Char :=
  ("\nFile Processing Report\n=====================\nOriginal File: " ++ filename
    ++ "\nProcessed At: " ++ isoformat t
    ++ "\nOriginal Size: " ++ toString size ++ " bytes\n\nProcessed Content:\n").data
  ++ upperFold textContent
  ++ ("\n\nProcessing completed successfully.\n").data

/-- The binary-branch report header of `process_file_content`
(src/index.py lines 129-137), as a character list. -/
def binaryReportChars (filename : String) (t : DateTime) (size : Nat) : List Char :=
  ("\nBinary File Processing Report\n============================\nOriginal File: " ++ filename
    ++ "\nProcessed At: " ++ isoformat t
    ++ "\nOriginal Size: " ++ toString size ++ " bytes\n\n[Binary content preserved]\n").data

/-- Model of `process_file_content(content, filename)` (src/index.py lines
104-139); `t` is the value of the single `datetime.now()` call made
inside it. Attempts UTF-8 decoding of the bytes; on success returns the
encoded text report with the uppercased body, on `UnicodeDecodeError`
returns the encoded binary header followed by the original bytes. -/
def process_file_content (content : List Nat) (filename : String) (t : DateTime) : List Nat :=
  match utf8Decode content with
  | some textContent => utf8Encode (textReportChars filename t content.length textContent)
  | none => utf8Encode (binaryReportChars filename t content.length) ++ content

/-- One S3 object-created sub-event: the `s3.bucket.name` and
`s3.object.key` fields of an element of the inner `Records` list. -/
structure S3Obj where
  bucket : String
  key : String
deriving DecidableEq, Repr

/-- One SQS record of the triggering event, represented by its parse
outcome (the record body is an opaque string in the source): `parse` is
the composite result of `json.loads(record.body)`, the `Message` field
access, the inner `json.loads` and the `Records` field access
(src/index.py lines 22-28, all evaluated before any sub-event of the
record is processed); each list element is the result of the per-sub-event
field accesses `s3.bucket.name` / `s3.object.key` (lines 29-30).
`Except.error e` stands for the Python exception raised at that stage. -/
structure SqsRecord where
  parse : Except String (List (Except String S3Obj))

/-- The structured SNS message dict (src/index.py lines 53-65 and 84-88). -/
inductive SnsMessage where
  | success (origBucket origKey procBucket procKey processedAt : String) (fileSize : Nat)
  | error (err processedAt : String)
deriving DecidableEq, Repr

/-- One attempted collaborator call, recorded in program order. -/
inductive Call where
  | get (bucket key : String)
  | put (bucket key : String) (body : List Nat)
  | pub (topicArn subject : String) (message : SnsMessage)
deriving DecidableEq, Repr

/-- Interpreter state: the `datetime.now()` call counter and the trace of
attempted collaborator calls. -/
structure St where
  tick : Nat
  trace : List Call
deriving DecidableEq, Repr

/-- The external collaborators: S3, SNS and the wall clock, as
deterministic oracles. -/
structure Ctx where
  getObject : String → String → Except String (List Nat)
  putObject : String → String → List Nat → Except String Unit
  snsPublish : String → String → SnsMessage → Except String Unit
  clock : Nat → DateTime

/-- The handler's return dict: `statusCode` and `body`. -/
structure HandlerResult where
  statusCode : Nat
  body : String
deriving DecidableEq, Repr

/-- Model of `json.dumps` of a plain string (src/index.py lines 77 and 101):
wraps it in quotes; escaping elided (no string in scope needs it). -/
def jsonDumps (s : String) : String := "\"" ++ s ++ "\""

/-- The destination key `f"processed_TIMESTAMP_KEY"` (src/index.py line 43). -/
def output_key_for (timestamp objectKey : String) : String :=
  "processed_" ++ timestamp ++ "_" ++ objectKey

/-- The per-sub-event body of the inner loop (src/index.py lines 32-73):
download, transform, upload, publish success. Each attempted call is
recorded in the trace even when its oracle fails; an `Except.error`
result propagates the Python exception. -/
def processTask (c : Ctx) (outputBucket topicArn : String) (obj : S3Obj) (s : St) :
    Except String Unit × St :=
  let s1 : St := ⟨s.tick, s.trace ++ [Call.get obj.bucket obj.key]⟩
  match c.getObject obj.bucket obj.key with
  | Except.error e => (Except.error e, s1)
  | Except.ok fileContent =>
    let t1 := c.clock s1.tick
    let processedContent := process_file_content fileContent obj.key t1
    let t2 := c.clock (s1.tick + 1)
    let outputKey := output_key_for (strftimeTimestamp t2) obj.key
    let s2 : St := ⟨s1.tick + 2, s1.trace ++ [Call.put outputBucket outputKey processedContent]⟩
    match c.putObject outputBucket outputKey processedContent with
    | Except.error e => (Except.error e, s2)
    | Except.ok _ =>
      let t3 := c.clock s2.tick
      let msg := SnsMessage.success obj.bucket obj.key outputBucket outputKey
        (isoformat t3) processedContent.length
      let subject := "File Processed: " ++ obj.key
      let s3 : St := ⟨s2.tick + 1, s2.trace ++ [Call.pub topicArn subject msg]⟩
      match c.snsPublish topicArn subject msg with
      | Except.error e => (Except.error e, s3)
      | Except.ok _ => (Except.ok (), s3)

/-- The inner `for s3_record in sns_message['Records']` loop
(src/index.py lines 28-73): a failed field extraction or a failed task
propagates immediately, abandoning the rest of the list. -/
def processSubEvents (c : Ctx) (outputBucket topicArn : String) :
    List (Except String S3Obj) → St → Except String Unit × St
  | [], s => (Except.ok (), s)
  | se :: rest, s =>
    match se with
    | Except.error e => (Except.error e, s)
    | Except.ok obj =>
      match processTask c outputBucket topicArn obj s with
      | (Except.error e, s') => (Except.error e, s')
      | (Except.ok _, s') => processSubEvents c outputBucket topicArn rest s'

/-- The outer `for record in event['Records']` loop (src/index.py lines
20-73): a record's decode failure or a failed sub-event propagates
immediately, abandoning the remaining records. -/
def processRecords (c : Ctx) (outputBucket topicArn : String) :
    List SqsRecord → St → Except String Unit × St
  | [], s => (Except.ok (), s)
  | r :: rest, s =>
    match r.parse with
    | Except.error e => (Except.error e, s)
    | Except.ok subEvents =>
      match processSubEvents c outputBucket topicArn subEvents s with
      | (Except.error e, s') => (Except.error e, s')
      | (Except.ok _, s') => processRecords c outputBucket topicArn rest s'

/-- The body of the outer `try` (src/index.py lines 14-78): read the two
required environment variables (`os.environ[...]` raising `KeyError`
when absent), access `event['Records']` and run the record loop. -/
def handlerTry (env : String → Option String) (c : Ctx)
    (event : Except String (List SqsRecord)) : Except String Unit × St :=
  match env "OUTPUT_BUCKET" with
  | none => (Except.error "KeyError: OUTPUT_BUCKET", ⟨0, []⟩)
  | some outputBucket =>
    match env "SNS_TOPIC_ARN" with
    | none => (Except.error "KeyError: SNS_TOPIC_ARN", ⟨0, []⟩)
    | some topicArn =>
      match event with
      | Except.error e => (Except.error e, ⟨0, []⟩)
      | Except.ok records => processRecords c outputBucket topicArn records ⟨0, []⟩

/-- Model of `handler(event, context)` (src/index.py lines 10-102). `env` is
`os.environ`; `event` is the parse outcome of `event['Records']`
(an error stands for a malformed top-level event). The whole try body
runs first; any exception falls into the `except` block, which publishes
one error message inside an inner try whose own failure — including the
`UnboundLocalError` when `sns_topic_arn` was never bound because reading
the environment raised — is swallowed, and returns status 500. -/
def handler (env : String → Option String) (c : Ctx)
    (event : Except String (List SqsRecord)) : HandlerResult × St :=
  match handlerTry env c event with
  | (Except.ok _, s) => (⟨200, jsonDumps "Files processed successfully"⟩, s)
  | (Except.error e, s) =>
    let errMsg := SnsMessage.error e (isoformat (c.clock s.tick))
    let s1 : St := ⟨s.tick + 1, s.trace⟩
    let s2 : St :=
      match env "OUTPUT_BUCKET", env "SNS_TOPIC_ARN" with
      | some _, some topicArn =>
        ⟨s1.tick, s1.trace ++ [Call.pub topicArn "File Processing Error" errMsg]⟩
      | _, _ => s1
    (⟨500, jsonDumps ("Error processing files: " ++ e)⟩, s2)

/-- Recognizer for recorded `get_object` calls. -/
def Call.isGet : Call → Bool
  | Call.get _ _ => true
  | _ => false

/-- Recognizer for recorded `put_object` calls. -/
def Call.isPut : Call → Bool
  | Call.put _ _ _ => true
  | _ => false

/-- Recognizer for recorded publishes of a success message. -/
def Call.isSuccessPub : Call → Bool
  | Call.pub _ _ (SnsMessage.success _ _ _ _ _ _) => true
  | _ => false

/-- Recognizer for recorded publishes of an error message. -/
def Call.isErrPub : Call → Bool
  | Call.pub _ _ (SnsMessage.error _ _) => true
  | _ => false

/-- The three calls a task makes on a failure-free run, when `get_object`
returns `g bucket key` and the clock starts at `tick`. -/
def successTaskCalls (g : String → String → List Nat) (clock : Nat → DateTime)
    (outputBucket topicArn : String) (obj : S3Obj) (tick : Nat) : List Call :=
  let content := g obj.bucket obj.key
  let processed := process_file_content content obj.key (clock tick)
  let outputKey := output_key_for (strftimeTimestamp (clock (tick + 1))) obj.key
  [Call.get obj.bucket obj.key,
   Call.put outputBucket outputKey processed,
   Call.pub topicArn ("File Processed: " ++ obj.key)
     (SnsMessage.success obj.bucket obj.key outputBucket outputKey
       (isoformat (clock (tick + 2))) processed.length)]

/-- The full trace of a failure-free run over a task list, three calls
per task in task order. -/
def successTrace (g : String → String → List Nat) (clock : Nat → DateTime)
    (outputBucket topicArn : String) : List S3Obj → Nat → List Call
  | [], _ => []
  | obj :: rest, tick =>
    successTaskCalls g clock outputBucket topicArn obj tick
      ++ successTrace g clock outputBucket topicArn rest (tick + 3)

/-- The sub-events of one record when every field extraction succeeds;
`none` when any fails. -/
def allOkSubs : List (Except String S3Obj) → Option (List S3Obj)
  | [] => some []
  | Except.ok o :: rest => (allOkSubs rest).map (fun l => o :: l)
  | Except.error _ :: _ => none

/-- The flat, order-preserving task list of a fully well-formed batch;
`none` when any record is malformed at any nesting level. -/
def batchTasks : List SqsRecord → Option (List S3Obj)
  | [] => some []
  | r :: rest =>
    match r.parse with
    | Except.error _ => none
    | Except.ok subs =>
      match allOkSubs subs, batchTasks rest with
      | some objs, some more => some (objs ++ more)
      | _, _ => none

/-- Every success message published in the trace reports as `file_size`
the byte length of a body stored by a recorded `put_object` call at the
very destination the message announces. -/
def sizeConsistent (tr : List Call) : Prop :=
  ∀ tp sub ob ok pb pk iso sz,
    Call.pub tp sub (SnsMessage.success ob ok pb pk iso sz) ∈ tr →
    ∃ body, Call.put pb pk body ∈ tr ∧ sz = body.length

/-- Environment fixture: both required variables set, no optional one. -/
def specEnv : String → Option String := fun k =>
  if k = "OUTPUT_BUCKET" then some "out"
  else if k = "SNS_TOPIC_ARN" then some "arn" else none

/-- Environment fixture: the required variables plus `SECRET_IDENTIFIER`
(the auxiliary credential the spec describes), set to `"q"` — a string
that occurs nowhere in the report produced for the fixture object. -/
def specEnvSecret : String → Option String := fun k =>
  if k = "OUTPUT_BUCKET" then some "out"
  else if k = "SNS_TOPIC_ARN" then some "arn"
  else if k = "SECRET_IDENTIFIER" then some "q" else none

/-- Clock fixture: second `n` of a fixed minute. -/
def specClock : Nat → DateTime := fun n => ⟨2026, 1, 2, 3, 4, n⟩

/-- Collaborator fixture: every object reads as the bytes of `"hi"`,
stores and publishes succeed. -/
def ctxOk : Ctx :=
  { getObject := fun _ _ => Except.ok [104, 105]
    putObject := fun _ _ _ => Except.ok ()
    snsPublish := fun _ _ _ => Except.ok ()
    clock := specClock }

/-- Collaborator fixture: like `ctxOk` but every `publish` raises. -/
def ctxPubFail : Ctx :=
  { getObject := fun _ _ => Except.ok [104, 105]
    putObject := fun _ _ _ => Except.ok ()
    snsPublish := fun _ _ _ => Except.error "boom"
    clock := specClock }

/-- Collaborator fixture: like `ctxOk` but every `get_object` raises
`NotFound`. -/
def ctxGetFail : Ctx :=
  { getObject := fun _ _ => Except.error "NotFound"
    putObject := fun _ _ _ => Except.ok ()
    snsPublish := fun _ _ _ => Except.ok ()
    clock := specClock }

/-- Record fixture: one well-formed record with one sub-event. -/
def recF : SqsRecord := ⟨Except.ok [Except.ok ⟨"in", "f.txt"⟩]⟩

/-- Record fixture: one well-formed record with sub-event key `k1.txt`. -/
def recK1 : SqsRecord := ⟨Except.ok [Except.ok ⟨"in", "k1.txt"⟩]⟩

/-- Record fixture: one well-formed record with sub-event key `k2.txt`. -/
def recK2 : SqsRecord := ⟨Except.ok [Except.ok ⟨"in", "k2.txt"⟩]⟩

/-- Record fixture: a record whose body fails to parse
(`json.loads` raising). -/
def recBad : SqsRecord := ⟨Except.error "JSONDecodeError"⟩

/-- Record fixture: one well-formed record with the two sub-events
`k1.txt` then `k2.txt`. -/
def recK1K2 : SqsRecord :=
  ⟨Except.ok [Except.ok ⟨"in", "k1.txt"⟩, Except.ok ⟨"in", "k2.txt"⟩]⟩

/-! ## Theorems -/

set_option maxRecDepth 16000

/-- C5: for every input byte string that decodes as UTF-8 text, the
stored artifact is the encoded text report; that report, case-folded, is
at least as long as the uppercase-fold of the original text body, and it
contains the original text entirely in uppercase as a substring. -/
theorem c5_text_artifact_contains_uppercase (content : List Nat) (txt : List Char)
    (filename : String) (t : DateTime) (h : utf8Decode content = some txt) :
    process_file_content content filename t
      = utf8Encode (textReportChars filename t content.length txt)
    ∧ upperFold txt <:+: textReportChars filename t content.length txt
    ∧ (upperFold txt).length ≤ (upperFold (textReportChars filename t content.length txt)).length := by
  refine ⟨by simp [process_file_content, h], ?_, ?_⟩
  · unfold textReportChars
    exact List.infix_append _ _ _
  · unfold textReportChars upperFold
    simp
    omega

/-- Witness for C5 at the concrete input `b"hi"`. -/
theorem c5_text_artifact_contains_uppercase_witness :
    utf8Decode [104, 105] = some ['h', 'i']
    ∧ (process_file_content [104, 105] "f.txt" ⟨2026, 1, 2, 3, 4, 5⟩
        = utf8Encode (textReportChars "f.txt" ⟨2026, 1, 2, 3, 4, 5⟩
            (List.length [104, 105]) ['h', 'i'])
      ∧ upperFold ['h', 'i']
          <:+: textReportChars "f.txt" ⟨2026, 1, 2, 3, 4, 5⟩ (List.length [104, 105]) ['h', 'i']
      ∧ (upperFold ['h', 'i']).length
          ≤ (upperFold (textReportChars "f.txt" ⟨2026, 1, 2, 3, 4, 5⟩
              (List.length [104, 105]) ['h', 'i'])).length) :=
  ⟨rfl, c5_text_artifact_contains_uppercase [104, 105] ['h', 'i'] "f.txt" ⟨2026, 1, 2, 3, 4, 5⟩ rfl⟩

/-- C6: for every input byte string that is not valid UTF-8, the stored
artifact is the encoded binary report header followed by the original
input bytes, so it ends with exactly those bytes; the branch condition is
only the decode failure — the statement quantifies over every filename
and no other input exists to inspect. -/
theorem c6_binary_artifact_preserves_bytes (content : List Nat)
    (filename : String) (t : DateTime) (h : utf8Decode content = none) :
    process_file_content content filename t
      = utf8Encode (binaryReportChars filename t content.length) ++ content
    ∧ content <:+ process_file_content content filename t := by
  have h1 : process_file_content content filename t
      = utf8Encode (binaryReportChars filename t content.length) ++ content := by
    simp [process_file_content, h]
  refine ⟨h1, ?_⟩
  rw [h1]
  exact List.suffix_append _ _

/-- Witness for C6 at the concrete non-UTF-8 input `b"\xff"`. -/
theorem c6_binary_artifact_preserves_bytes_witness :
    utf8Decode [255] = none
    ∧ (process_file_content [255] "f.bin" ⟨2026, 1, 2, 3, 4, 5⟩
        = utf8Encode (binaryReportChars "f.bin" ⟨2026, 1, 2, 3, 4, 5⟩ (List.length [255])) ++ [255]
      ∧ [255] <:+ process_file_content [255] "f.bin" ⟨2026, 1, 2, 3, 4, 5⟩) :=
  ⟨rfl, c6_binary_artifact_preserves_bytes [255] "f.bin" ⟨2026, 1, 2, 3, 4, 5⟩ rfl⟩

/-- C4: for a task processed at instant `t` (with calendar-range field
values), the destination key is the literal `processed_`, the 15-character
`YYYYMMDD_HHMMSS` timestamp, an underscore, then the original key, and
dropping the fixed 26-character prefix recovers the original key. -/
theorem c4_destination_key_roundtrip (t : DateTime) (k : String)
    (hy : t.year ≤ 9999) (hmo : t.month ≤ 99) (hd : t.day ≤ 99)
    (hh : t.hour ≤ 99) (hmi : t.minute ≤ 99) (hs : t.second ≤ 99) :
    output_key_for (strftimeTimestamp t) k
      = "processed_" ++ strftimeTimestamp t ++ "_" ++ k
    ∧ (strftimeTimestamp t).length = 15
    ∧ (output_key_for (strftimeTimestamp t) k).drop 26 = k := by
  refine ⟨rfl, ?_, ?_⟩
  · simp [strftimeTimestamp, pad4, pad2]
  · have hdata : (output_key_for (strftimeTimestamp t) k).data
        = ("processed_".data
            ++ (pad4 t.year ++ pad2 t.month ++ pad2 t.day ++ ['_']
                ++ pad2 t.hour ++ pad2 t.minute ++ pad2 t.second)
            ++ "_".data) ++ k.data := by
      simp [output_key_for, strftimeTimestamp]
    have hlen : ("processed_".data
        ++ (pad4 t.year ++ pad2 t.month ++ pad2 t.day ++ ['_']
            ++ pad2 t.hour ++ pad2 t.minute ++ pad2 t.second)
        ++ "_".data).length = 26 := by
      simp [pad4, pad2]
    rw [String.drop_eq, hdata, List.drop_left' hlen]

/-- Witness for C4 at the concrete instant 2026-10-12 03:04:05 and key
`report.txt`. -/
theorem c4_destination_key_roundtrip_witness :
    ((⟨2026, 10, 12, 3, 4, 5⟩ : DateTime).year ≤ 9999
      ∧ (⟨2026, 10, 12, 3, 4, 5⟩ : DateTime).month ≤ 99
      ∧ (⟨2026, 10, 12, 3, 4, 5⟩ : DateTime).day ≤ 99
      ∧ (⟨2026, 10, 12, 3, 4, 5⟩ : DateTime).hour ≤ 99
      ∧ (⟨2026, 10, 12, 3, 4, 5⟩ : DateTime).minute ≤ 99
      ∧ (⟨2026, 10, 12, 3, 4, 5⟩ : DateTime).second ≤ 99)
    ∧ (output_key_for (strftimeTimestamp ⟨2026, 10, 12, 3, 4, 5⟩) "report.txt"
        = "processed_" ++ strftimeTimestamp ⟨2026, 10, 12, 3, 4, 5⟩ ++ "_" ++ "report.txt"
      ∧ (strftimeTimestamp ⟨2026, 10, 12, 3, 4, 5⟩).length = 15
      ∧ (output_key_for (strftimeTimestamp ⟨2026, 10, 12, 3, 4, 5⟩) "report.txt").drop 26
          = "report.txt") :=
  ⟨by decide,
   c4_destination_key_roundtrip ⟨2026, 10, 12, 3, 4, 5⟩ "report.txt"
     (by decide) (by decide) (by decide) (by decide) (by decide) (by decide)⟩

/-- The inner loop over a concatenation: if the first half succeeds it
continues into the second half from the reached state. -/
theorem processSubEvents_ok_append {c : Ctx} {ob tp : String}
    {l1 : List (Except String S3Obj)} {s s' : St} {u : Unit}
    (h : processSubEvents c ob tp l1 s = (Except.ok u, s'))
    (l2 : List (Except String S3Obj)) :
    processSubEvents c ob tp (l1 ++ l2) s = processSubEvents c ob tp l2 s' := by
  induction l1 generalizing s with
  | nil =>
    simp only [processSubEvents] at h
    cases h
    simp
  | cons se rest ih =>
    cases se with
    | error e => simp [processSubEvents] at h
    | ok obj =>
      simp only [processSubEvents, List.cons_append] at h ⊢
      rcases htask : processTask c ob tp obj s with ⟨res, s1⟩
      rw [htask] at h
      cases res with
      | error e => simp at h
      | ok v => exact ih h

/-- The inner loop over a concatenation: if the first half fails, the
second half is never reached. -/
theorem processSubEvents_error_append {c : Ctx} {ob tp : String}
    {l1 : List (Except String S3Obj)} {s s' : St} {e : String}
    (h : processSubEvents c ob tp l1 s = (Except.error e, s'))
    (l2 : List (Except String S3Obj)) :
    processSubEvents c ob tp (l1 ++ l2) s = (Except.error e, s') := by
  induction l1 generalizing s with
  | nil => simp [processSubEvents] at h
  | cons se rest ih =>
    cases se with
    | error e' =>
      simp only [processSubEvents] at h
      cases h
      simp [processSubEvents]
    | ok obj =>
      simp only [processSubEvents, List.cons_append] at h ⊢
      rcases htask : processTask c ob tp obj s with ⟨res, s1⟩
      rw [htask] at h
      cases res with
      | error e' => exact h
      | ok v => exact ih h

/-- The outer loop over a concatenation: if the first half succeeds it
continues into the second half from the reached state. -/
theorem processRecords_ok_append {c : Ctx} {ob tp : String}
    {l1 : List SqsRecord} {s s' : St} {u : Unit}
    (h : processRecords c ob tp l1 s = (Except.ok u, s'))
    (l2 : List SqsRecord) :
    processRecords c ob tp (l1 ++ l2) s = processRecords c ob tp l2 s' := by
  induction l1 generalizing s with
  | nil =>
    simp only [processRecords] at h
    cases h
    simp
  | cons r rest ih =>
    obtain ⟨pr⟩ := r
    cases pr with
    | error e => simp [processRecords] at h
    | ok subs =>
      simp only [processRecords, List.cons_append] at h ⊢
      rcases hsub : processSubEvents c ob tp subs s with ⟨res, s1⟩
      rw [hsub] at h
      cases res with
      | error e => simp at h
      | ok v =>
        change processRecords c ob tp rest s1 = (Except.ok u, s') at h
        change processRecords c ob tp (rest ++ l2) s1 = processRecords c ob tp l2 s'
        exact ih h

/-- The outer loop over a concatenation: if the first half fails, the
second half is never reached and the state is the one at the failure. -/
theorem processRecords_error_append {c : Ctx} {ob tp : String}
    {l1 : List SqsRecord} {s s' : St} {e : String}
    (h : processRecords c ob tp l1 s = (Except.error e, s'))
    (l2 : List SqsRecord) :
    processRecords c ob tp (l1 ++ l2) s = (Except.error e, s') := by
  induction l1 generalizing s with
  | nil => simp [processRecords] at h
  | cons r rest ih =>
    obtain ⟨pr⟩ := r
    cases pr with
    | error e' => exact h
    | ok subs =>
      simp only [processRecords, List.cons_append] at h ⊢
      rcases hsub : processSubEvents c ob tp subs s with ⟨res, s1⟩
      rw [hsub] at h
      cases res with
      | error e1 => exact h
      | ok v =>
        change processRecords c ob tp rest s1 = (Except.error e, s') at h
        change processRecords c ob tp (rest ++ l2) s1 = (Except.error e, s')
        exact ih h

/-- On a failure-free run (`get_object` returning `g`, stores and
publishes succeeding) one task makes exactly its three calls, consumes
three clock ticks and succeeds. -/
theorem processTask_success_run (c : Ctx) (ob tp : String)
    (g : String → String → List Nat)
    (hget : ∀ b k, c.getObject b k = Except.ok (g b k))
    (hput : ∀ b k body, c.putObject b k body = Except.ok ())
    (hpub : ∀ a sub m, c.snsPublish a sub m = Except.ok ())
    (obj : S3Obj) (s : St) :
    processTask c ob tp obj s
      = (Except.ok (),
         ⟨s.tick + 3, s.trace ++ successTaskCalls g c.clock ob tp obj s.tick⟩) := by
  simp [processTask, hget, hput, hpub, successTaskCalls]

/-- The function `successTrace` distributes over concatenated task lists. -/
theorem successTrace_append (g : String → String → List Nat)
    (clock : Nat → DateTime) (ob tp : String) (l1 l2 : List S3Obj) (tick : Nat) :
    successTrace g clock ob tp (l1 ++ l2) tick
      = successTrace g clock ob tp l1 tick
        ++ successTrace g clock ob tp l2 (tick + 3 * l1.length) := by
  induction l1 generalizing tick with
  | nil => simp [successTrace]
  | cons o rest ih =>
    have h3 : tick + 3 + 3 * rest.length = tick + 3 * (rest.length + 1) := by ring
    simp only [List.cons_append, successTrace, List.length_cons]
    show successTaskCalls g clock ob tp o tick
        ++ successTrace g clock ob tp (rest ++ l2) (tick + 3)
      = successTaskCalls g clock ob tp o tick ++ successTrace g clock ob tp rest (tick + 3)
        ++ successTrace g clock ob tp l2 (tick + 3 * (rest.length + 1))
    rw [ih (tick + 3), h3]
    simp [List.append_assoc]

/-- On a failure-free run, the inner loop over well-formed sub-events
makes three calls per sub-event in order and succeeds. -/
theorem processSubEvents_success_run (c : Ctx) (ob tp : String)
    (g : String → String → List Nat)
    (hget : ∀ b k, c.getObject b k = Except.ok (g b k))
    (hput : ∀ b k body, c.putObject b k body = Except.ok ())
    (hpub : ∀ a sub m, c.snsPublish a sub m = Except.ok ()) :
    ∀ (subs : List (Except String S3Obj)) (objs : List S3Obj) (s : St),
      allOkSubs subs = some objs →
      processSubEvents c ob tp subs s
        = (Except.ok (),
           ⟨s.tick + 3 * objs.length,
            s.trace ++ successTrace g c.clock ob tp objs s.tick⟩) := by
  intro subs
  induction subs with
  | nil =>
    intro objs s h
    simp only [allOkSubs, Option.some.injEq] at h
    subst h
    simp [processSubEvents, successTrace]
  | cons se rest ih =>
    intro objs s h
    cases se with
    | error e => simp [allOkSubs] at h
    | ok o =>
      simp only [allOkSubs] at h
      rcases hr : allOkSubs rest with _ | objs'
      · rw [hr] at h; simp at h
      · rw [hr] at h
        simp only [Option.map_some', Option.some.injEq] at h
        subst h
        have htask := processTask_success_run c ob tp g hget hput hpub o s
        simp only [processSubEvents, htask]
        rw [ih objs' _ hr]
        have harith : s.tick + 3 + 3 * objs'.length = s.tick + 3 * (objs'.length + 1) := by
          ring
        simp only [successTrace, List.length_cons, harith, List.append_assoc]

/-- On a failure-free run, the outer loop over a fully well-formed batch
makes three calls per task, in record-then-sub-event order, and
succeeds. -/
theorem processRecords_success_run (c : Ctx) (ob tp : String)
    (g : String → String → List Nat)
    (hget : ∀ b k, c.getObject b k = Except.ok (g b k))
    (hput : ∀ b k body, c.putObject b k body = Except.ok ())
    (hpub : ∀ a sub m, c.snsPublish a sub m = Except.ok ()) :
    ∀ (records : List SqsRecord) (tasks : List S3Obj) (s : St),
      batchTasks records = some tasks →
      processRecords c ob tp records s
        = (Except.ok (),
           ⟨s.tick + 3 * tasks.length,
            s.trace ++ successTrace g c.clock ob tp tasks s.tick⟩) := by
  intro records
  induction records with
  | nil =>
    intro tasks s h
    simp only [batchTasks, Option.some.injEq] at h
    subst h
    simp [processRecords, successTrace]
  | cons r rest ih =>
    intro tasks s h
    obtain ⟨pr⟩ := r
    cases pr with
    | error e => simp [batchTasks] at h
    | ok subs =>
      simp only [batchTasks] at h
      rcases hsubs : allOkSubs subs with _ | objs
      · rw [hsubs] at h; simp at h
      · rcases hrest : batchTasks rest with _ | more
        · rw [hsubs, hrest] at h; simp at h
        · rw [hsubs, hrest] at h
          simp only [Option.some.injEq] at h
          subst h
          have hsub := processSubEvents_success_run c ob tp g hget hput hpub subs objs s hsubs
          simp only [processRecords, hsub]
          rw [ih more _ hrest]
          rw [successTrace_append]
          have harith : s.tick + 3 * objs.length + 3 * more.length
              = s.tick + 3 * (objs.length + more.length) := by ring
          simp only [List.append_assoc, List.length_append, harith]

/-- A failure-free trace contains exactly one retrieval per task. -/
theorem successTrace_countP_get (g : String → String → List Nat)
    (clock : Nat → DateTime) (ob tp : String) :
    ∀ (l : List S3Obj) (tick : Nat),
      (successTrace g clock ob tp l tick).countP Call.isGet = l.length := by
  intro l
  induction l with
  | nil => intro tick; simp [successTrace]
  | cons o rest ih =>
    intro tick
    simp [successTrace, successTaskCalls, List.countP_append, List.countP_cons,
      Call.isGet, ih]

/-- A failure-free trace contains exactly one store per task. -/
theorem successTrace_countP_put (g : String → String → List Nat)
    (clock : Nat → DateTime) (ob tp : String) :
    ∀ (l : List S3Obj) (tick : Nat),
      (successTrace g clock ob tp l tick).countP Call.isPut = l.length := by
  intro l
  induction l with
  | nil => intro tick; simp [successTrace]
  | cons o rest ih =>
    intro tick
    simp [successTrace, successTaskCalls, List.countP_append, List.countP_cons,
      Call.isPut, ih]

/-- A failure-free trace contains exactly one success publish per task. -/
theorem successTrace_countP_successPub (g : String → String → List Nat)
    (clock : Nat → DateTime) (ob tp : String) :
    ∀ (l : List S3Obj) (tick : Nat),
      (successTrace g clock ob tp l tick).countP Call.isSuccessPub = l.length := by
  intro l
  induction l with
  | nil => intro tick; simp [successTrace]
  | cons o rest ih =>
    intro tick
    simp [successTrace, successTaskCalls, List.countP_append, List.countP_cons,
      Call.isSuccessPub, ih]

/-- C8: for a fully well-formed batch whose flat task list is `tasks`
and collaborators that never fail, the handler returns status 200 and
its trace is exactly three calls per task — one retrieval, one store,
one success publish — in record-then-sub-event order; in particular the
trace counts `tasks.length` retrievals, stores and success publishes. -/
theorem c8_success_batch_trace (env : String → Option String) (c : Ctx)
    (ob tp : String) (g : String → String → List Nat)
    (records : List SqsRecord) (tasks : List S3Obj)
    (hOB : env "OUTPUT_BUCKET" = some ob)
    (hSNS : env "SNS_TOPIC_ARN" = some tp)
    (htasks : batchTasks records = some tasks)
    (hget : ∀ b k, c.getObject b k = Except.ok (g b k))
    (hput : ∀ b k body, c.putObject b k body = Except.ok ())
    (hpub : ∀ a sub m, c.snsPublish a sub m = Except.ok ()) :
    handler env c (Except.ok records)
      = (⟨200, jsonDumps "Files processed successfully"⟩,
         ⟨3 * tasks.length, successTrace g c.clock ob tp tasks 0⟩)
    ∧ (successTrace g c.clock ob tp tasks 0).countP Call.isGet = tasks.length
    ∧ (successTrace g c.clock ob tp tasks 0).countP Call.isPut = tasks.length
    ∧ (successTrace g c.clock ob tp tasks 0).countP Call.isSuccessPub = tasks.length := by
  have hrec := processRecords_success_run c ob tp g hget hput hpub records tasks ⟨0, []⟩ htasks
  refine ⟨?_, successTrace_countP_get g c.clock ob tp tasks 0,
    successTrace_countP_put g c.clock ob tp tasks 0,
    successTrace_countP_successPub g c.clock ob tp tasks 0⟩
  simp [handler, handlerTry, hOB, hSNS, hrec]

/-- Retrieval oracle of the `ctxOk` fixture as a total function. -/
def gHi : String → String → List Nat := fun _ _ => [104, 105]

/-- Witness for C8: one record, one sub-event `in/f.txt`, collaborators
that never fail. -/
theorem c8_success_batch_trace_witness :
    (specEnv "OUTPUT_BUCKET" = some "out"
      ∧ specEnv "SNS_TOPIC_ARN" = some "arn"
      ∧ batchTasks [recF] = some [⟨"in", "f.txt"⟩])
    ∧ (handler specEnv ctxOk (Except.ok [recF])
        = (⟨200, jsonDumps "Files processed successfully"⟩,
           ⟨3 * List.length [(⟨"in", "f.txt"⟩ : S3Obj)],
            successTrace gHi ctxOk.clock "out" "arn" [⟨"in", "f.txt"⟩] 0⟩)
      ∧ (successTrace gHi ctxOk.clock "out" "arn" [⟨"in", "f.txt"⟩] 0).countP Call.isGet
          = List.length [(⟨"in", "f.txt"⟩ : S3Obj)]
      ∧ (successTrace gHi ctxOk.clock "out" "arn" [⟨"in", "f.txt"⟩] 0).countP Call.isPut
          = List.length [(⟨"in", "f.txt"⟩ : S3Obj)]
      ∧ (successTrace gHi ctxOk.clock "out" "arn" [⟨"in", "f.txt"⟩] 0).countP Call.isSuccessPub
          = List.length [(⟨"in", "f.txt"⟩ : S3Obj)]) :=
  ⟨⟨rfl, rfl, rfl⟩,
   c8_success_batch_trace specEnv ctxOk "out" "arn" gHi [recF] [⟨"in", "f.txt"⟩]
     rfl rfl rfl (fun _ _ => rfl) (fun _ _ _ => rfl) (fun _ _ _ => rfl)⟩

/-- C9: for every environment, every collaborator behaviour and every
event — including the ones where reading the environment raises before
`sns_topic_arn` is bound — the handler returns a result record, with
status code 200 or 500, and never propagates an exception. -/
theorem c9_handler_total_status (env : String → Option String) (c : Ctx)
    (ev : Except String (List SqsRecord)) :
    (handler env c ev).1.statusCode = 200 ∨ (handler env c ev).1.statusCode = 500 := by
  unfold handler
  rcases h : handlerTry env c ev with ⟨res, s⟩
  cases res with
  | ok u => left; rfl
  | error e => right; rfl

/-- C1 counterexample: with collaborators whose `publish` always raises,
a batch of one record with sub-events `k1.txt` then `k2.txt` ends with
status 500 and `k2.txt` is never retrieved — the success-publish failure
of the first task escalates instead of being logged and skipped. -/
theorem c1_success_publish_failure_escalates :
    (handler specEnv ctxPubFail (Except.ok [recK1K2])).1.statusCode = 500
    ∧ Call.get "in" "k2.txt" ∉ (handler specEnv ctxPubFail (Except.ok [recK1K2])).2.trace := by
  decide

/-- C1 amended: only the batch-level error-notification publish failure
is swallowed — whenever the try body fails with `e`, the handler returns
status 500 carrying `e`, whatever the publish oracle did; a per-task
success-publish failure is itself such a try-body failure. -/
theorem c1_error_publish_failure_swallowed (env : String → Option String)
    (c : Ctx) (ev : Except String (List SqsRecord)) (e : String) (s : St)
    (h : handlerTry env c ev = (Except.error e, s)) :
    (handler env c ev).1 = ⟨500, jsonDumps ("Error processing files: " ++ e)⟩ := by
  unfold handler
  rw [h]

/-- Witness for the amended C1 on the failing-publish run. -/
theorem c1_error_publish_failure_swallowed_witness :
    handlerTry specEnv ctxPubFail (Except.ok [recK1K2])
      = (Except.error "boom", (handlerTry specEnv ctxPubFail (Except.ok [recK1K2])).2)
    ∧ (handler specEnv ctxPubFail (Except.ok [recK1K2])).1
        = ⟨500, jsonDumps ("Error processing files: " ++ "boom")⟩ :=
  ⟨rfl,
   c1_error_publish_failure_swallowed specEnv ctxPubFail (Except.ok [recK1K2]) "boom"
     (handlerTry specEnv ctxPubFail (Except.ok [recK1K2])).2 rfl⟩

/-- C2 counterexample: a well-formed record before a malformed one is
fully processed — its object is retrieved — before the decode failure
turns the batch into a 500; the claim said no retrieval happens at all. -/
theorem c2_earlier_record_already_processed :
    (handler specEnv ctxOk (Except.ok [recK1, recBad])).1.statusCode = 500
    ∧ Call.get "in" "k1.txt" ∈ (handler specEnv ctxOk (Except.ok [recK1, recBad])).2.trace := by
  decide

/-- C2 amended: a record decode failure aborts the batch at the
malformed record: the loop stops there with that record's decode error
and the records after it are never examined, but the state reached by
the preceding well-formed records — including their retrievals, stores
and success publishes — stands. -/
theorem c2_decode_failure_aborts_at_malformed_record (c : Ctx) (ob tp : String)
    (rs1 : List SqsRecord) (e : String) (rs2 : List SqsRecord)
    (s s' : St) (u : Unit)
    (h1 : processRecords c ob tp rs1 s = (Except.ok u, s')) :
    processRecords c ob tp (rs1 ++ (⟨Except.error e⟩ : SqsRecord) :: rs2) s
      = (Except.error e, s') := by
  rw [processRecords_ok_append h1]
  rfl

/-- Witness for the amended C2: good record, bad record, good record. -/
theorem c2_decode_failure_aborts_at_malformed_record_witness :
    processRecords ctxOk "out" "arn" [recK1] ⟨0, []⟩
      = (Except.ok (), (processRecords ctxOk "out" "arn" [recK1] ⟨0, []⟩).2)
    ∧ processRecords ctxOk "out" "arn"
        ([recK1] ++ (⟨Except.error "JSONDecodeError"⟩ : SqsRecord) :: [recK2]) ⟨0, []⟩
      = (Except.error "JSONDecodeError", (processRecords ctxOk "out" "arn" [recK1] ⟨0, []⟩).2) :=
  ⟨rfl,
   c2_decode_failure_aborts_at_malformed_record ctxOk "out" "arn" [recK1] "JSONDecodeError"
     [recK2] ⟨0, []⟩ (processRecords ctxOk "out" "arn" [recK1] ⟨0, []⟩).2 () rfl⟩

/-- C3 counterexample: with `SECRET_IDENTIFIER` set to `"q"`, the run is
identical to the run without it, and the artifact stored for the
text-decodable input `b"hi"` does not contain the credential (byte 113,
`q`) anywhere — the transformation takes no credential and embeds
none. -/
theorem c3_secret_not_embedded :
    specEnvSecret "SECRET_IDENTIFIER" = some "q"
    ∧ handler specEnvSecret ctxOk (Except.ok [recF]) = handler specEnv ctxOk (Except.ok [recF])
    ∧ Call.put "out" (output_key_for (strftimeTimestamp (specClock 1)) "f.txt")
        (process_file_content (gHi "in" "f.txt") "f.txt" (specClock 0))
        ∈ (handler specEnvSecret ctxOk (Except.ok [recF])).2.trace
    ∧ 113 ∉ process_file_content (gHi "in" "f.txt") "f.txt" (specClock 0) := by
  refine ⟨rfl, by decide, by decide, by decide⟩

/-- C3 amended: the handler reads only `OUTPUT_BUCKET` and
`SNS_TOPIC_ARN`; its entire behaviour — result and trace — is unchanged
by any other environment entry, in particular by `SECRET_IDENTIFIER`,
and the transformation receives no credential. -/
theorem c3_handler_ignores_secret_identifier (env env' : String → Option String)
    (c : Ctx) (ev : Except String (List SqsRecord))
    (hOB : env "OUTPUT_BUCKET" = env' "OUTPUT_BUCKET")
    (hSNS : env "SNS_TOPIC_ARN" = env' "SNS_TOPIC_ARN") :
    handler env c ev = handler env' c ev := by
  unfold handler handlerTry
  rw [hOB, hSNS]

/-- Witness for the amended C3: the two fixture environments differing
exactly in `SECRET_IDENTIFIER`. -/
theorem c3_handler_ignores_secret_identifier_witness :
    (specEnvSecret "OUTPUT_BUCKET" = specEnv "OUTPUT_BUCKET"
      ∧ specEnvSecret "SNS_TOPIC_ARN" = specEnv "SNS_TOPIC_ARN")
    ∧ handler specEnvSecret ctxOk (Except.ok [recF]) = handler specEnv ctxOk (Except.ok [recF]) :=
  ⟨⟨rfl, rfl⟩,
   c3_handler_ignores_secret_identifier specEnvSecret specEnv ctxOk (Except.ok [recF]) rfl rfl⟩

/-- One task appends no error publish to the trace, whatever its
collaborators do. -/
theorem processTask_trace_errPub (c : Ctx) (ob tp : String) (obj : S3Obj) (s : St) :
    ((processTask c ob tp obj s).2).trace.countP Call.isErrPub
      = s.trace.countP Call.isErrPub := by
  simp only [processTask]
  split
  · simp [List.countP_append, List.countP_cons, Call.isErrPub]
  · split
    · simp [List.countP_append, List.countP_cons, Call.isErrPub]
    · split
      · simp [List.countP_append, List.countP_cons, Call.isErrPub]
      · simp [List.countP_append, List.countP_cons, Call.isErrPub]

/-- The inner loop appends no error publish to the trace. -/
theorem processSubEvents_trace_errPub (c : Ctx) (ob tp : String) :
    ∀ (subs : List (Except String S3Obj)) (s : St),
      ((processSubEvents c ob tp subs s).2).trace.countP Call.isErrPub
        = s.trace.countP Call.isErrPub := by
  intro subs
  induction subs with
  | nil => intro s; rfl
  | cons se rest ih =>
    intro s
    cases se with
    | error e => rfl
    | ok obj =>
      have htask := processTask_trace_errPub c ob tp obj s
      simp only [processSubEvents]
      rcases hp : processTask c ob tp obj s with ⟨res, s1⟩
      rw [hp] at htask
      cases res with
      | error e =>
        show s1.trace.countP Call.isErrPub = s.trace.countP Call.isErrPub
        exact htask
      | ok v =>
        show ((processSubEvents c ob tp rest s1).2).trace.countP Call.isErrPub
          = s.trace.countP Call.isErrPub
        rw [ih s1]
        exact htask

/-- The outer loop appends no error publish to the trace. -/
theorem processRecords_trace_errPub (c : Ctx) (ob tp : String) :
    ∀ (records : List SqsRecord) (s : St),
      ((processRecords c ob tp records s).2).trace.countP Call.isErrPub
        = s.trace.countP Call.isErrPub := by
  intro records
  induction records with
  | nil => intro s; rfl
  | cons r rest ih =>
    intro s
    obtain ⟨pr⟩ := r
    cases pr with
    | error e => rfl
    | ok subs =>
      have hsub := processSubEvents_trace_errPub c ob tp subs s
      simp only [processRecords]
      rcases hp : processSubEvents c ob tp subs s with ⟨res, s1⟩
      rw [hp] at hsub
      cases res with
      | error e =>
        show s1.trace.countP Call.isErrPub = s.trace.countP Call.isErrPub
        exact hsub
      | ok v =>
        show ((processRecords c ob tp rest s1).2).trace.countP Call.isErrPub
          = s.trace.countP Call.isErrPub
        rw [ih s1]
        exact hsub

/-- A failing retrieval ends the task at once: only the attempted `get`
is recorded and the store error propagates. -/
theorem processTask_get_error (c : Ctx) (ob tp : String) (obj : S3Obj) (s : St)
    (e : String) (hget : c.getObject obj.bucket obj.key = Except.error e) :
    processTask c ob tp obj s
      = (Except.error e, ⟨s.tick, s.trace ++ [Call.get obj.bucket obj.key]⟩) := by
  simp [processTask, hget]

/-- C7: if, after some successfully processed records and sub-events,
`get_object` raises for the next task, then nothing further is attempted
for that task or any later one: the trace ends with that single failed
retrieval followed by exactly one error publish carrying the error
description, and the handler returns status 500 carrying it too; the
whole trace holds exactly one error publish. -/
theorem c7_retrieval_failure_aborts_batch
    (env : String → Option String) (c : Ctx) (ob tp : String)
    (rs1 : List SqsRecord) (ss1 : List (Except String S3Obj)) (obj : S3Obj)
    (ss2 : List (Except String S3Obj)) (rs2 : List SqsRecord)
    (e : String) (s1 s2 : St)
    (hOB : env "OUTPUT_BUCKET" = some ob)
    (hSNS : env "SNS_TOPIC_ARN" = some tp)
    (h1 : processRecords c ob tp rs1 ⟨0, []⟩ = (Except.ok (), s1))
    (h2 : processSubEvents c ob tp ss1 s1 = (Except.ok (), s2))
    (hget : c.getObject obj.bucket obj.key = Except.error e)
    (hpub : c.snsPublish tp "File Processing Error"
        (SnsMessage.error e (isoformat (c.clock s2.tick))) = Except.ok ()) :
    handler env c
        (Except.ok (rs1 ++ (⟨Except.ok (ss1 ++ Except.ok obj :: ss2)⟩ : SqsRecord) :: rs2))
      = (⟨500, jsonDumps ("Error processing files: " ++ e)⟩,
         ⟨s2.tick + 1,
          s2.trace ++ [Call.get obj.bucket obj.key,
            Call.pub tp "File Processing Error"
              (SnsMessage.error e (isoformat (c.clock s2.tick)))]⟩)
    ∧ (s2.trace ++ [Call.get obj.bucket obj.key,
         Call.pub tp "File Processing Error"
           (SnsMessage.error e (isoformat (c.clock s2.tick)))]).countP Call.isErrPub = 1 := by
  have htask := processTask_get_error c ob tp obj s2 e hget
  have hsub2 : processSubEvents c ob tp (Except.ok obj :: ss2) s2
      = (Except.error e, ⟨s2.tick, s2.trace ++ [Call.get obj.bucket obj.key]⟩) := by
    simp only [processSubEvents, htask]
  have hsubAll : processSubEvents c ob tp (ss1 ++ Except.ok obj :: ss2) s1
      = (Except.error e, ⟨s2.tick, s2.trace ++ [Call.get obj.bucket obj.key]⟩) := by
    rw [processSubEvents_ok_append h2, hsub2]
  have hrecMid : processRecords c ob tp
      ((⟨Except.ok (ss1 ++ Except.ok obj :: ss2)⟩ : SqsRecord) :: rs2) s1
      = (Except.error e, ⟨s2.tick, s2.trace ++ [Call.get obj.bucket obj.key]⟩) := by
    simp only [processRecords, hsubAll]
  have hrecAll : processRecords c ob tp
      (rs1 ++ (⟨Except.ok (ss1 ++ Except.ok obj :: ss2)⟩ : SqsRecord) :: rs2) ⟨0, []⟩
      = (Except.error e, ⟨s2.tick, s2.trace ++ [Call.get obj.bucket obj.key]⟩) := by
    rw [processRecords_ok_append h1, hrecMid]
  have hz1 : s1.trace.countP Call.isErrPub = 0 := by
    have hz := processRecords_trace_errPub c ob tp rs1 ⟨0, []⟩
    rw [h1] at hz
    simpa using hz
  have hz2 : s2.trace.countP Call.isErrPub = 0 := by
    have hz := processSubEvents_trace_errPub c ob tp ss1 s1
    rw [h2] at hz
    simpa [hz1] using hz
  constructor
  · unfold handler handlerTry
    rw [hOB, hSNS]
    simp only [hrecAll]
    simp [hOB, hSNS]
  · simp [List.countP_append, List.countP_cons, Call.isErrPub, hz2]

/-- Witness for C7: single record, single sub-event, retrieval raising
`NotFound` (spec section 8's second example). -/
theorem c7_retrieval_failure_aborts_batch_witness :
    (specEnv "OUTPUT_BUCKET" = some "out"
      ∧ specEnv "SNS_TOPIC_ARN" = some "arn"
      ∧ processRecords ctxGetFail "out" "arn" [] ⟨0, []⟩ = (Except.ok (), ⟨0, []⟩)
      ∧ processSubEvents ctxGetFail "out" "arn" [] ⟨0, []⟩ = (Except.ok (), ⟨0, []⟩)
      ∧ ctxGetFail.getObject "in" "f.txt" = Except.error "NotFound")
    ∧ (handler specEnv ctxGetFail
        (Except.ok ([] ++ (⟨Except.ok ([] ++ Except.ok ⟨"in", "f.txt"⟩ :: [])⟩ : SqsRecord) :: []))
      = (⟨500, jsonDumps ("Error processing files: " ++ "NotFound")⟩,
         ⟨(⟨0, []⟩ : St).tick + 1,
          (⟨0, []⟩ : St).trace ++ [Call.get "in" "f.txt",
            Call.pub "arn" "File Processing Error"
              (SnsMessage.error "NotFound" (isoformat (ctxGetFail.clock (⟨0, []⟩ : St).tick)))]⟩)
      ∧ ((⟨0, []⟩ : St).trace ++ [Call.get "in" "f.txt",
           Call.pub "arn" "File Processing Error"
             (SnsMessage.error "NotFound"
               (isoformat (ctxGetFail.clock (⟨0, []⟩ : St).tick)))]).countP Call.isErrPub = 1) :=
  ⟨⟨rfl, rfl, rfl, rfl, rfl⟩,
   c7_retrieval_failure_aborts_batch specEnv ctxGetFail "out" "arn"
     [] [] ⟨"in", "f.txt"⟩ [] [] "NotFound" ⟨0, []⟩ ⟨0, []⟩
     rfl rfl rfl rfl rfl rfl⟩

/-- The empty trace is vacuously size-consistent. -/
theorem sizeConsistent_nil : sizeConsistent [] := by
  intro a b d f g i j k hm
  simp at hm

/-- Appending a block that is internally size-consistent preserves
size-consistency of the whole trace. -/
theorem sizeConsistent_extend (tr delta : List Call) (h : sizeConsistent tr)
    (hd : ∀ a b d f g i j k,
        Call.pub a b (SnsMessage.success d f g i j k) ∈ delta →
        ∃ body, Call.put g i body ∈ delta ∧ k = body.length) :
    sizeConsistent (tr ++ delta) := by
  intro a b d f g i j k hmem
  rcases List.mem_append.1 hmem with hin | hin
  · obtain ⟨body, hb, hsz⟩ := h _ _ _ _ _ _ _ _ hin
    exact ⟨body, List.mem_append.2 (Or.inl hb), hsz⟩
  · obtain ⟨body, hb, hsz⟩ := hd _ _ _ _ _ _ _ _ hin
    exact ⟨body, List.mem_append.2 (Or.inr hb), hsz⟩

/-- One task preserves size-consistency: the only success publish it can
append carries exactly the length of the body stored by the `put` it
appends alongside. -/
theorem processTask_sizeConsistent (c : Ctx) (ob tp : String) (obj : S3Obj) (s : St)
    (h : sizeConsistent s.trace) :
    sizeConsistent ((processTask c ob tp obj s).2).trace := by
  simp only [processTask]
  split
  · refine sizeConsistent_extend _ _ h ?_
    intro a b d f g i j k hm
    simp at hm
  · split
    · simp only [List.append_assoc, List.singleton_append, List.cons_append, List.nil_append]
      refine sizeConsistent_extend _ _ h ?_
      intro a b d f g i j k hm
      simp at hm
    · split
      · simp only [List.append_assoc, List.singleton_append, List.cons_append, List.nil_append]
        refine sizeConsistent_extend _ _ h ?_
        intro a b d f g i j k hm
        simp only [List.mem_cons, List.not_mem_nil, or_false] at hm
        rcases hm with h1 | h1 | h1
        · exact absurd h1 (by simp)
        · exact absurd h1 (by simp)
        · simp only [Call.pub.injEq, SnsMessage.success.injEq] at h1
          obtain ⟨-, -, -, -, hg, hi, -, hk⟩ := h1
          subst hg; subst hi; subst hk
          refine ⟨_, ?_, rfl⟩
          simp
      · simp only [List.append_assoc, List.singleton_append, List.cons_append, List.nil_append]
        refine sizeConsistent_extend _ _ h ?_
        intro a b d f g i j k hm
        simp only [List.mem_cons, List.not_mem_nil, or_false] at hm
        rcases hm with h1 | h1 | h1
        · exact absurd h1 (by simp)
        · exact absurd h1 (by simp)
        · simp only [Call.pub.injEq, SnsMessage.success.injEq] at h1
          obtain ⟨-, -, -, -, hg, hi, -, hk⟩ := h1
          subst hg; subst hi; subst hk
          refine ⟨_, ?_, rfl⟩
          simp

/-- The inner loop preserves size-consistency of the trace. -/
theorem processSubEvents_sizeConsistent (c : Ctx) (ob tp : String) :
    ∀ (subs : List (Except String S3Obj)) (s : St),
      sizeConsistent s.trace →
      sizeConsistent ((processSubEvents c ob tp subs s).2).trace := by
  intro subs
  induction subs with
  | nil => intro s hs; exact hs
  | cons se rest ih =>
    intro s hs
    cases se with
    | error e => exact hs
    | ok obj =>
      have htask := processTask_sizeConsistent c ob tp obj s hs
      simp only [processSubEvents]
      rcases hp : processTask c ob tp obj s with ⟨res, s1⟩
      rw [hp] at htask
      cases res with
      | error e => exact htask
      | ok v =>
        show sizeConsistent ((processSubEvents c ob tp rest s1).2).trace
        exact ih s1 htask

/-- The outer loop preserves size-consistency of the trace. -/
theorem processRecords_sizeConsistent (c : Ctx) (ob tp : String) :
    ∀ (records : List SqsRecord) (s : St),
      sizeConsistent s.trace →
      sizeConsistent ((processRecords c ob tp records s).2).trace := by
  intro records
  induction records with
  | nil => intro s hs; exact hs
  | cons r rest ih =>
    intro s hs
    obtain ⟨pr⟩ := r
    cases pr with
    | error e => exact hs
    | ok subs =>
      have hsub := processSubEvents_sizeConsistent c ob tp subs s hs
      simp only [processRecords]
      rcases hp : processSubEvents c ob tp subs s with ⟨res, s1⟩
      rw [hp] at hsub
      cases res with
      | error e => exact hsub
      | ok v =>
        show sizeConsistent ((processRecords c ob tp rest s1).2).trace
        exact ih s1 hsub

/-- C10: in every run, whatever the environment, collaborators and
event, every success notification in the trace reports as `file_size`
the byte length of the very body stored at the destination bucket and
key it announces — the transformed artifact's size, not the source
object's. -/
theorem c10_notification_size_matches_artifact (env : String → Option String)
    (c : Ctx) (ev : Except String (List SqsRecord)) :
    sizeConsistent ((handler env c ev).2).trace := by
  have htry : sizeConsistent ((handlerTry env c ev).2).trace := by
    unfold handlerTry
    rcases env "OUTPUT_BUCKET" with _ | ob
    · exact sizeConsistent_nil
    · rcases env "SNS_TOPIC_ARN" with _ | tp
      · exact sizeConsistent_nil
      · rcases ev with e | records
        · exact sizeConsistent_nil
        · exact processRecords_sizeConsistent c ob tp records ⟨0, []⟩ sizeConsistent_nil
  unfold handler
  rcases h : handlerTry env c ev with ⟨res, s⟩
  rw [h] at htry
  cases res with
  | ok u => exact htry
  | error e =>
    rcases env "OUTPUT_BUCKET" with _ | ob
    · exact htry
    · rcases env "SNS_TOPIC_ARN" with _ | tp
      · exact htry
      · refine sizeConsistent_extend _ _ htry ?_
        intro a b d f g i j k hm
        simp at hm
